import Mathlib

/-!
Verification of the LeetCode solution-generation pipeline
(repository `gg-interview-ai-agent`).

The development shallowly embeds the pipeline code:

* `src/crews/agents/leetcode_tasks.py` — the Pydantic contracts
  (`SolutionApproach`, `Criteria`);
* `src/crews/leetcode_crew.py` — `LeetCodeCrew.solve_leetcode_problem`,
  the coordinator that turns the two task outputs of one crew kickoff
  into a `SolutionResult`;
* `src/crew_api.py` — the `generate_leetcode_solution` endpoint body,
  which validates the request, runs the crew, and aggregates the
  response payload;
* `src/test_new/api.py` — the free-text criteria normalization inside
  `analyze_problem`.

Python strings are modelled as Lean `String`s, with the handful of
Python string primitives the code uses (`str.strip`, `len`, slicing,
`str.find`/`str.rfind`, `str.replace`, `str.split`) re-implemented over
the underlying `List Char` so that every definition evaluates inside the
kernel.  The generation collaborator (the CrewAI kickoff) is modelled as
an explicit input describing the shape of the two task outputs.
-/

namespace CrewPipeline

/-! ### Python string primitives -/

/-- Characters of `str.strip()`: drop whitespace at both ends
(the code only ever calls `strip` with no arguments). -/
def stripChars (l : List Char) : List Char :=
  ((l.dropWhile Char.isWhitespace).reverse.dropWhile Char.isWhitespace).reverse

/-- Python `s.strip()`. -/
def pyStrip (s : String) : String := ⟨stripChars s.data⟩

/-- Python `len(s)` — the number of characters. -/
def pyLen (s : String) : Nat := s.data.length

/-- Python `s[:n]` — prefix of at most `n` characters. -/
def pyTake (n : Nat) (s : String) : String := ⟨s.data.take n⟩

/-! ### Schema contracts (`src/crews/agents/leetcode_tasks.py`) -/

/-- The `SolutionApproach` Pydantic model (leetcode_tasks.py lines 10-19):
title/content are required strings, `rank` is an int defaulting to 999,
and the remaining fields are strings defaulting to `""`. -/
structure SolutionApproach where
  title : String
  content : String
  rank : Int
  time_complexity : String
  space_complexity : String
  code : String
  edge_cases : String
  test_examples : String
deriving DecidableEq, Repr

/-- The crew-level `Criteria` Pydantic model (leetcode_tasks.py lines 21-37):
only `id` and `description`; extra keys (such as `pattern`) are ignored
by its `model_config`. -/
structure Criteria where
  id : String
  description : String
deriving DecidableEq, Repr

/-- The `SolutionResult` model (leetcode_crew.py lines 16-21), with its
field defaults `approaches = []`, `criteria = []`, `status = "success"`,
`error = ""`. -/
structure SolutionResult where
  approaches : List SolutionApproach
  criteria : List Criteria
  status : String
  error : String
deriving DecidableEq, Repr

/-! ### The crew kickoff, as seen by `solve_leetcode_problem`

`LeetCodeCrew.solve_leetcode_problem` (leetcode_crew.py lines 44-154)
inspects the two task outputs of one `crew.kickoff()` call purely through
`hasattr(task.output, 'pydantic')` / `hasattr(approaches_data, 'approaches')`
probes.  We model a kickoff by the shape of those two outputs; a kickoff
that raises (the `except` at line 149) is its own case. -/

/-- Shape of `solution_task.output` after kickoff: either it has no
`pydantic` attribute, or its pydantic value has no `approaches` field,
or it carries a list of `SolutionApproach` records. -/
inductive SolutionTaskOutput where
  | noPydantic
  | pydanticNoApproaches
  | pydanticApproaches (approaches : List SolutionApproach)
deriving DecidableEq, Repr

/-- Shape of `criteria_task.output` after kickoff: either no `pydantic`
attribute, or a structured list of `Criteria` records. -/
inductive CriteriaTaskOutput where
  | noPydantic
  | pydanticCriteria (criteria : List Criteria)
deriving DecidableEq, Repr

/-- One `crew.kickoff()` call: either it raises with some message, or it
completes and leaves the two task outputs in the shapes above. -/
inductive KickoffResult where
  | raises (msg : String)
  | outputs (solution : SolutionTaskOutput) (criteria : CriteriaTaskOutput)
deriving DecidableEq, Repr

/-- The fallback approach substituted at leetcode_crew.py lines 102-106 and
110-114 (all other `SolutionApproach` fields take their defaults). -/
def fallbackApproach : SolutionApproach :=
  ⟨"Fallback Solution", "No structured approaches were generated. Please try again.",
   1, "", "", "", "", ""⟩

/-- The fallback criterion substituted at leetcode_crew.py lines 137-141
(the `pattern=""` keyword is ignored by the `Criteria` model). -/
def fallbackCriterion : Criteria :=
  ⟨"fallbackCriterion", "No structured criteria were generated."⟩

/-- Rank comparison used to sort approaches: `sorted(approaches_list,
key=lambda x: x.rank)` at leetcode_crew.py line 96. -/
def rankLe (a b : SolutionApproach) : Prop := a.rank ≤ b.rank

instance : DecidableRel rankLe := fun a b => Int.decLe a.rank b.rank

instance : IsTotal SolutionApproach rankLe := ⟨fun a b => Int.le_total a.rank b.rank⟩

instance : IsTrans SolutionApproach rankLe := ⟨fun _ _ _ hab hbc => le_trans hab hbc⟩

/-- Python `sorted(approaches_list, key=lambda x: x.rank)` is a stable sort
by rank.  A stable sort is extensionally determined by the key order, so we
use insertion sort (`List.insertionSort`, which places an element before the
later elements of equal rank), and prove sortedness and stability below. -/
def sortByRank (l : List SolutionApproach) : List SolutionApproach :=
  List.insertionSort rankLe l

/-- Embedding of `LeetCodeCrew.solve_leetcode_problem` (leetcode_crew.py
lines 44-154), as a function of the kickoff outcome.

* If `crew.kickoff()` raises, the `except` at line 149 returns
  `SolutionResult(status="error", error=f"Error in LeetCodeCrew: {e}")`.
* Otherwise the approaches block (lines 84-118) takes the structured
  approaches sorted by rank when `output.pydantic.approaches` exists and
  a single fallback approach otherwise, and the criteria block
  (lines 120-145) takes `output.pydantic.criteria` when present and a
  single fallback criterion otherwise.  `status` keeps its `"success"`
  default (line 80) on every non-raising path.

The inner `except` clauses at lines 116 and 143 are unreachable in this
model: the guarded attribute reads cannot fail on values of the Pydantic
contract types, and `sorted` by an `int` key cannot raise. -/
def solve_leetcode_problem : KickoffResult → SolutionResult
  | .raises msg => ⟨[], [], "error", "Error in LeetCodeCrew: " ++ msg⟩
  | .outputs sol crit =>
    let approaches :=
      match sol with
      | .noPydantic => [fallbackApproach]
      | .pydanticNoApproaches => [fallbackApproach]
      | .pydanticApproaches l => sortByRank l
    let criteria :=
      match crit with
      | .noPydantic => [fallbackCriterion]
      | .pydanticCriteria l => l
    ⟨approaches, criteria, "success", ""⟩

/-! ### Request model and endpoint (`src/crew_api.py`) -/

/-- The `LeetCodeSolutionRequest` Pydantic model (crew_api.py lines 38-57),
restricted to the fields the endpoint logic reads: `content` and the three
language fields.  The remaining metadata fields (`title`, `category`,
`constraints`, `url`, `id`, `difficulty`, ...) never influence the
endpoint body and are omitted.  An `Option` value of `none` models an
absent (JSON `null`) field. -/
structure LeetCodeSolutionRequest where
  content : String
  programmingLanguage : Option String
  programLanguage : Option String
  language : Option String
deriving DecidableEq, Repr

/-- Python truthiness of an optional string: `None` and `""` are falsy. -/
def truthyStr : Option String → Bool
  | none => false
  | some s => !(s == "")

/-- The `check_language_field` model validator (crew_api.py lines 60-66):
if none of the three language fields is truthy, set
`programmingLanguage = "python"`. -/
def check_language_field (req : LeetCodeSolutionRequest) : LeetCodeSolutionRequest :=
  if truthyStr req.programmingLanguage || truthyStr req.programLanguage ||
      truthyStr req.language then
    req
  else
    { req with programmingLanguage := some "python" }

/-- Language selection at crew_api.py lines 148-150:
`next((lang for lang in [programmingLanguage, programLanguage, language]
if lang), "python")` — the first truthy field, defaulting to `"python"`. -/
def selectLanguage (req : LeetCodeSolutionRequest) : String :=
  if truthyStr req.programmingLanguage then req.programmingLanguage.getD "python"
  else if truthyStr req.programLanguage then req.programLanguage.getD "python"
  else if truthyStr req.language then req.language.getD "python"
  else "python"

/-- The `ApproachResponse` Pydantic model (crew_api.py lines 93-102). -/
structure ApproachResponse where
  title : String
  content : String
  rank : Int
  time_complexity : String
  space_complexity : String
  code : String
  edge_cases : String
  test_examples : String
deriving DecidableEq, Repr

/-- Building an `ApproachResponse` from one approach dict
(crew_api.py lines 204-213).  The dicts produced by
`SolutionResult.dict()` carry every `SolutionApproach` key, so each
`approach_dict.get(key, default)` returns the stored value unchanged. -/
def toApproachResponse (a : SolutionApproach) : ApproachResponse :=
  ⟨a.title, a.content, a.rank, a.time_complexity, a.space_complexity,
   a.code, a.edge_cases, a.test_examples⟩

/-- A criterion dict in the response payload (crew_api.py lines 300-304):
keys `id`, `description`, `pattern`. -/
structure CriterionOut where
  id : String
  description : String
  pattern : String
deriving DecidableEq, Repr

/-- Cleaning of one criterion dict (crew_api.py lines 265-269 followed by
lines 298-304).  The criteria coming out of `SolutionResult.dict()` are
dicts with string `id`/`description` and no `pattern` key, so
`str(criterion.get("id", "") or "")` is the stored id (likewise for the
description) and `pattern` becomes `""`. -/
def toCriterionOut (c : Criteria) : CriterionOut := ⟨c.id, c.description, ""⟩

/-- The default criterion of crew_api.py lines 338-344. -/
def defaultCriterion : CriterionOut :=
  ⟨"defaultCriterion", "The solution must handle the given test cases correctly.", ""⟩

/-- The response payload of the endpoint, restricted to the fields the
claims are about.  Error payloads (crew_api.py lines 157-160 and 330-333)
carry only `status` and `message`; the success payload (lines 173-179
plus the derived fields) carries the rest.  `none` models an absent key. -/
structure EndpointResponse where
  status : String
  message : Option String
  language : Option String
  approaches : List ApproachResponse
  introduction : Option String
  approach_count : Option Nat
  solution_criteria : Option (List CriterionOut)
deriving DecidableEq, Repr

/-- Result of one endpoint call: either an `HTTPException` with a status
code and detail (crew_api.py lines 325 and 349-359) or a JSON response. -/
inductive EndpointResult where
  | httpError (statusCode : Nat) (detail : String)
  | response (payload : EndpointResponse)
deriving DecidableEq, Repr

/-- Projection onto the JSON response, when there is one. -/
def getResponse : EndpointResult → Option EndpointResponse
  | .httpError _ _ => none
  | .response r => some r

/-- The short-input error payload (crew_api.py lines 157-160). -/
def shortInputResponse : EndpointResponse :=
  ⟨"error", some "Problem description is too short or empty.", none, [], none, none, none⟩

/-- The no-approaches error payload (crew_api.py lines 330-333). -/
def noApproachesResponse : EndpointResponse :=
  ⟨"error",
   some "No solution approaches could be generated. Please try again or modify your problem description.",
   none, [], none, none, none⟩

/-- Python `min(approach_responses, key=lambda x: x.rank)`
(crew_api.py line 227): the first element attaining the minimal rank
(`min` replaces its candidate only on a strictly smaller key).  The
`if x.rank is not None` guard of the key function is vacuous because
`ApproachResponse.rank` is an `int`. -/
def minByRank (a : ApproachResponse) (l : List ApproachResponse) : ApproachResponse :=
  l.foldl (fun acc x => if x.rank < acc.rank then x else acc) a

/-- The introduction string built at crew_api.py line 228:
`f"{best_approach.title} - {best_approach.content[:200]}..."`. -/
def mkIntroduction (best : ApproachResponse) : String :=
  best.title ++ " - " ++ pyTake 200 best.content ++ "..."

/-- The body of the `generate_leetcode_solution` endpoint
(crew_api.py lines 146-347) after Pydantic validation has already applied
`check_language_field` to the request.  The crew collaborator is passed
as a function from `(problem_description, language)` to the dict returned
by `LeetCodeCrew.solve_leetcode_problem`.

* Lines 155-160: empty or too-short (stripped length `< 10`) problem text
  returns the short-input error payload before the crew is consulted.
* Lines 167-170: the crew is invoked once.
* Lines 188-223: every approach dict is converted to an `ApproachResponse`
  (`result["approaches"]` stays `[]` when the crew produced none, which
  coincides with mapping over the empty list).
* Lines 225-228: the introduction is derived from the minimal-rank
  response (or `""` when there are no approaches).
* Lines 254-319: each criterion dict is cleaned into a `CriterionOut`
  and `result["solution_criteria"]` is set to `{"criteria": <list>}`.
* Lines 321-325: a crew-level `"error"` status raises `HTTPException(500)`
  with the crew error message as detail.
* Lines 327-333: an empty approaches list returns the no-approaches error
  payload.
* Line 336: the defensive check replaces `result["solution_criteria"]`
  with the default criterion only when the key is missing or not a dict;
  the value set at line 319 is always a dict with a `"criteria"` key, so
  the `none` branch below is unreachable. -/
def generate_leetcode_solution_body (req : LeetCodeSolutionRequest)
    (crew : String → String → SolutionResult) : EndpointResult :=
  let problem_description := req.content
  let language := selectLanguage req
  if problem_description == "" || decide (pyLen (pyStrip problem_description) < 10) then
    .response shortInputResponse
  else
    let solution_result := crew problem_description language
    let approach_responses := solution_result.approaches.map toApproachResponse
    let introduction :=
      match approach_responses with
      | [] => ""
      | a :: rest => mkIntroduction (minByRank a rest)
    let solution_criteria : Option (List CriterionOut) :=
      some (solution_result.criteria.map toCriterionOut)
    if solution_result.status == "error" then
      .httpError 500 solution_result.error
    else if approach_responses.isEmpty then
      .response noApproachesResponse
    else
      let final_criteria :=
        match solution_criteria with
        | none => [defaultCriterion]
        | some cs => cs
      .response ⟨"success", none, some language, approach_responses, some introduction,
                 some approach_responses.length, some final_criteria⟩

/-- The `generate_leetcode_solution` endpoint as the caller sees it:
FastAPI first runs the `check_language_field` validator on the parsed
request, then executes the handler body. -/
def generate_leetcode_solution (req : LeetCodeSolutionRequest)
    (crew : String → String → SolutionResult) : EndpointResult :=
  generate_leetcode_solution_body (check_language_field req) crew

/-! ### Free-text criteria normalization (`src/test_new/api.py`)

`analyze_problem` (test_new/api.py lines 84-140) recovers a list of
criteria strings from the raw text of the second task.  We embed the
normalization chain applied to `criteria_text`: the looks-like-a-JSON-array
check, `json.loads`, the bracket-scanning recovery inside the
`except json.JSONDecodeError` handler, the line-splitting fallback, the
empty-list default, and the final strip-and-filter comprehension. -/

/-- Drop leading JSON whitespace. -/
def skipSpaces : List Char → List Char
  | [] => []
  | c :: l => if c.isWhitespace then skipSpaces l else c :: l

/-- JSON string escapes accepted by `json.loads` (the subset that can
occur in the string-list contract; an unknown escape fails the parse). -/
def escChar (e : Char) : Option Char :=
  if e = '"' || e = '\\' || e = '/' then some e
  else if e = 'n' then some (Char.ofNat 10)
  else if e = 't' then some (Char.ofNat 9)
  else if e = 'r' then some (Char.ofNat 13)
  else if e = 'b' then some (Char.ofNat 8)
  else if e = 'f' then some (Char.ofNat 12)
  else none

/-- Parse the body of a JSON string literal after its opening quote,
returning the decoded characters and the rest of the input. -/
def parseStringBody : List Char → Option (List Char × List Char)
  | [] => none
  | '"' :: rest => some ([], rest)
  | '\\' :: e :: rest =>
    match escChar e, parseStringBody rest with
    | some c, some (s, r) => some (c :: s, r)
    | _, _ => none
  | c :: rest =>
    match parseStringBody rest with
    | some (s, r) => some (c :: s, r)
    | none => none

/-- Parse the comma-separated string items of a JSON array, after the
opening bracket.  `fuel` bounds the recursion by the input length. -/
def parseArrayItems : Nat → List Char → List String → Option (List String)
  | 0, _, _ => none
  | fuel + 1, l, acc =>
    match skipSpaces l with
    | '"' :: rest =>
      match parseStringBody rest with
      | none => none
      | some (s, r) =>
        match skipSpaces r with
        | ',' :: r2 => parseArrayItems fuel r2 (acc ++ [⟨s⟩])
        | ']' :: r2 => if (skipSpaces r2).isEmpty then some (acc ++ [⟨s⟩]) else none
        | _ => none
    | _ => none

/-- Model of `json.loads` on input expected to be a JSON array of strings (the
string-list contract of the criteria stage).  `none` models a
`json.JSONDecodeError`. -/
def json_loads_string_array (s : String) : Option (List String) :=
  match skipSpaces s.data with
  | '[' :: rest =>
    match skipSpaces rest with
    | ']' :: r2 => if (skipSpaces r2).isEmpty then some [] else none
    | _ => parseArrayItems (rest.length + 1) rest []
  | _ => none

/-- Python `s.find(pat)` (clipped to `none` for "not found" instead of
`-1`): the least character index where `pat` occurs. -/
def findSub (pat l : List Char) : Option Nat :=
  ((List.range (l.length + 1)).filter (fun i => pat.isPrefixOf (l.drop i))).head?

/-- Python `s.rfind(pat)` (clipped to `none` for "not found"): the
greatest character index where `pat` occurs. -/
def rfindSub (pat l : List Char) : Option Nat :=
  ((List.range (l.length + 1)).filter (fun i => pat.isPrefixOf (l.drop i))).getLast?

/-- Python `s.replace('\\"', '"')`: left-to-right, non-overlapping. -/
def replaceEscQuote : List Char → List Char
  | '\\' :: '"' :: rest => '"' :: replaceEscQuote rest
  | c :: rest => c :: replaceEscQuote rest
  | [] => []

/-- Python `s.split(c)` on a single-character separator. -/
def splitOnChar (c : Char) : List Char → List (List Char)
  | [] => [[]]
  | x :: rest =>
    match splitOnChar c rest with
    | h :: t => if x = c then [] :: h :: t else (x :: h) :: t
    | [] => [[x]]

/-- Python `s.strip('"')`: drop quote characters at both ends. -/
def stripQuoteChars (l : List Char) : List Char :=
  ((l.dropWhile (· = '"')).reverse.dropWhile (· = '"')).reverse

/-- The line-splitting fallback of test_new/api.py line 110:
`[line.strip().strip('"') for line in criteria_text.split('\n')
if line.strip()]`. -/
def splitFallback (criteria_text : String) : List String :=
  (((splitOnChar '\n' criteria_text.data).filter
      (fun l => !(stripChars l).isEmpty)).map
    (fun l => (⟨stripQuoteChars (stripChars l)⟩ : String)))

/-- Normalization of `criteria_text` in `analyze_problem`
(test_new/api.py lines 86-140):

* lines 88-92: if the stripped text starts with `[` and ends with `]`,
  `json.loads` the raw text, else keep the whole text as the single
  element of the list;
* lines 93-115 (`except json.JSONDecodeError`): find the first `["` and
  the last `"]`; when both exist in order, slice between them, undo
  escaped quotes and `json.loads` the slice (any failure inside this
  recovery keeps the whole text as the single element); otherwise fall
  back to line splitting;
* lines 132-133: an empty list is replaced by the default message;
* line 136: strip every item, dropping falsy (empty) items first. -/
def normalize_criteria_text (criteria_text : String) : List String :=
  let stripped := stripChars criteria_text.data
  let criteria_array : List String :=
    if (match stripped with | '[' :: _ => true | _ => false) &&
        (match stripped.reverse with | ']' :: _ => true | _ => false) then
      match json_loads_string_array criteria_text with
      | some arr => arr
      | none =>
        match findSub ['[', '"'] criteria_text.data,
              rfindSub ['"', ']'] criteria_text.data with
        | some s, some e =>
          if s < e then
            let json_content :=
              replaceEscQuote ((criteria_text.data.drop s).take (e + 2 - s))
            match json_loads_string_array (⟨json_content⟩ : String) with
            | some arr => arr
            | none => [criteria_text]
          else splitFallback criteria_text
        | _, _ => splitFallback criteria_text
    else [criteria_text]
  let criteria_array :=
    if criteria_array.isEmpty then ["No criteria could be extracted"] else criteria_array
  (criteria_array.filter (fun item => !(item == ""))).map (fun item => pyStrip item)

/-- Modelled from the claim wording of C10: the first non-empty field
among `programmingLanguage`, `programLanguage` and `language`, in that
priority order, and `"python"` when all three are absent.  This is the
spec-side selection, to be compared with the code-side
`selectLanguage ∘ check_language_field`. -/
def firstNonEmptyField : List (Option String) → String
  | [] => "python"
  | none :: rest => firstNonEmptyField rest
  | some s :: rest => if s = "" then firstNonEmptyField rest else s

/-- Spec-side language selection for claim C10. -/
def claimedSelectedLanguage (req : LeetCodeSolutionRequest) : String :=
  firstNonEmptyField [req.programmingLanguage, req.programLanguage, req.language]

/-! ### Helper lemmas -/

theorem pyStrip_empty : pyStrip "" = "" := rfl

theorem check_language_field_content (req : LeetCodeSolutionRequest) :
    (check_language_field req).content = req.content := by
  unfold check_language_field
  split <;> rfl

theorem sortByRank_perm (l : List SolutionApproach) : List.Perm (sortByRank l) l :=
  List.perm_insertionSort rankLe l

theorem sorted_sortByRank (l : List SolutionApproach) :
    List.Sorted rankLe (sortByRank l) :=
  List.sorted_insertionSort rankLe l

/-- Stability of the rank sort, phrased through filters: the sublist of
entries having any fixed rank is unchanged by sorting, so entries of
equal rank keep their original relative order. -/
theorem sortByRank_filter (l : List SolutionApproach) (rk : Int) :
    (sortByRank l).filter (fun a => a.rank == rk)
      = l.filter (fun a => a.rank == rk) := by
  have hmem : ∀ a ∈ l.filter (fun a => a.rank == rk), a.rank = rk := by
    intro a ha
    simpa using (List.mem_filter.mp ha).2
  have hpair : (l.filter (fun a => a.rank == rk)).Pairwise rankLe := by
    refine List.pairwise_of_forall_mem_list ?_
    intro a ha b hb
    unfold rankLe
    rw [hmem a ha, hmem b hb]
  have hsub : List.Sublist (l.filter (fun a => a.rank == rk)) (sortByRank l) :=
    List.sublist_insertionSort hpair (List.filter_sublist l)
  have hself : (l.filter (fun a => a.rank == rk)).filter (fun a => a.rank == rk)
      = l.filter (fun a => a.rank == rk) := by
    refine List.filter_eq_self.mpr ?_
    intro a ha
    simp [hmem a ha]
  have hsubf : List.Sublist (l.filter (fun a => a.rank == rk))
      ((sortByRank l).filter (fun a => a.rank == rk)) := by
    have := hsub.filter (fun a => a.rank == rk)
    rwa [hself] at this
  have hlen : ((sortByRank l).filter (fun a => a.rank == rk)).length
      = (l.filter (fun a => a.rank == rk)).length :=
    ((sortByRank_perm l).filter (fun a => a.rank == rk)).length_eq
  exact (hsubf.eq_of_length hlen.symm).symm

theorem minByRank_cons (a b : ApproachResponse) (t : List ApproachResponse) :
    minByRank a (b :: t) = minByRank (if b.rank < a.rank then b else a) t := rfl

theorem minByRank_mem (a : ApproachResponse) (l : List ApproachResponse) :
    minByRank a l ∈ a :: l := by
  induction l generalizing a with
  | nil => simp [minByRank]
  | cons b t ih =>
    rw [minByRank_cons]
    have h := ih (if b.rank < a.rank then b else a)
    rcases List.mem_cons.mp h with h | h
    · rw [h]
      split <;> simp
    · simp [h]

theorem minByRank_le (a : ApproachResponse) (l : List ApproachResponse) :
    ∀ x ∈ a :: l, (minByRank a l).rank ≤ x.rank := by
  induction l generalizing a with
  | nil =>
    intro x hx
    rcases List.mem_singleton.mp hx with rfl
    simp [minByRank]
  | cons b t ih =>
    intro x hx
    rw [minByRank_cons]
    have hstep_a : (if b.rank < a.rank then b else a).rank ≤ a.rank := by
      split <;> omega
    have hstep_b : (if b.rank < a.rank then b else a).rank ≤ b.rank := by
      split <;> omega
    have hhead := ih (if b.rank < a.rank then b else a) _ (List.mem_cons_self _ _)
    rcases List.mem_cons.mp hx with rfl | hx
    · omega
    rcases List.mem_cons.mp hx with rfl | hx
    · omega
    · exact ih (if b.rank < a.rank then b else a) x (List.mem_cons_of_mem _ hx)

theorem selectLanguage_eq_claimed (req : LeetCodeSolutionRequest) :
    selectLanguage req = claimedSelectedLanguage req := by
  rcases req with ⟨c, pl, pgl, lg⟩
  rcases pl with _ | s₁ <;> rcases pgl with _ | s₂ <;> rcases lg with _ | s₃ <;>
    simp only [selectLanguage, claimedSelectedLanguage, firstNonEmptyField,
      truthyStr, Option.getD, Bool.not_eq_true] <;>
    split_ifs <;> simp_all

theorem selectLanguage_check (req : LeetCodeSolutionRequest) :
    selectLanguage (check_language_field req) = claimedSelectedLanguage req := by
  unfold check_language_field
  split
  · exact selectLanguage_eq_claimed req
  · rename_i hfalse
    have h1 : truthyStr req.programmingLanguage = false := by
      rcases h : truthyStr req.programmingLanguage <;> simp_all
    have h2 : truthyStr req.programLanguage = false := by
      rcases h : truthyStr req.programLanguage <;> simp_all
    have h3 : truthyStr req.language = false := by
      rcases h : truthyStr req.language <;> simp_all
    have hleft : selectLanguage { req with programmingLanguage := some "python" }
        = "python" := by
      simp [selectLanguage, truthyStr]
    rw [hleft]
    rcases req with ⟨c, pl, pgl, lg⟩
    rcases pl with _ | s₁ <;> rcases pgl with _ | s₂ <;> rcases lg with _ | s₃ <;>
      simp_all [claimedSelectedLanguage, firstNonEmptyField, truthyStr]

/-- The short-input guard: with at least 10 stripped characters the guard
condition at crew_api.py line 156 is false. -/
theorem guard_false_of_long (p : String) (h10 : 10 ≤ pyLen (pyStrip p)) :
    (p == "" || decide (pyLen (pyStrip p) < 10)) = false := by
  have hne : (p == "") = false := by
    rcases p with ⟨l⟩
    rcases l with _ | ⟨c, l⟩
    · simp [pyStrip, pyLen, stripChars] at h10
    · rfl
  rw [hne]
  simp
  omega

/-- Unfolding of the endpoint body with every `let` zeta-reduced, for use
in the proofs below. -/
theorem generate_leetcode_solution_body_eq (req : LeetCodeSolutionRequest)
    (crew : String → String → SolutionResult) :
    generate_leetcode_solution_body req crew =
      (if (req.content == "" || decide (pyLen (pyStrip req.content) < 10)) then
        .response shortInputResponse
      else if ((crew req.content (selectLanguage req)).status == "error") then
        .httpError 500 (crew req.content (selectLanguage req)).error
      else if ((crew req.content (selectLanguage req)).approaches.map
          toApproachResponse).isEmpty then
        .response noApproachesResponse
      else
        .response ⟨"success", none, some (selectLanguage req),
          (crew req.content (selectLanguage req)).approaches.map toApproachResponse,
          some (match (crew req.content (selectLanguage req)).approaches.map
              toApproachResponse with
            | [] => ""
            | a :: rest => mkIntroduction (minByRank a rest)),
          some ((crew req.content (selectLanguage req)).approaches.map
            toApproachResponse).length,
          some ((crew req.content (selectLanguage req)).criteria.map toCriterionOut)⟩) :=
  rfl

/-- Evaluation of the endpoint on the success path: a long-enough problem
text and a crew result with a non-error status and at least one approach
produce the aggregated success payload. -/
theorem generate_success_eval (req : LeetCodeSolutionRequest)
    (crew : String → String → SolutionResult)
    (h10 : 10 ≤ pyLen (pyStrip req.content))
    (hst : ((crew req.content (selectLanguage (check_language_field req))).status == "error")
        = false)
    (a : SolutionApproach) (t : List SolutionApproach)
    (happ : (crew req.content (selectLanguage (check_language_field req))).approaches
        = a :: t) :
    generate_leetcode_solution req crew = .response
      ⟨"success", none, some (selectLanguage (check_language_field req)),
       toApproachResponse a :: t.map toApproachResponse,
       some (mkIntroduction (minByRank (toApproachResponse a) (t.map toApproachResponse))),
       some (t.length + 1),
       some ((crew req.content (selectLanguage (check_language_field req))).criteria.map
         toCriterionOut)⟩ := by
  unfold generate_leetcode_solution
  rw [generate_leetcode_solution_body_eq, check_language_field_content,
    guard_false_of_long req.content h10, happ, hst]
  simp

/-- Inversion on the endpoint result: any JSON response whose status is
`"success"` came from the aggregation branch, hence has a non-empty
approaches list and echoes the selected language. -/
theorem endpoint_success_inversion (req : LeetCodeSolutionRequest)
    (crew : String → String → SolutionResult) (r : EndpointResponse)
    (h : getResponse (generate_leetcode_solution req crew) = some r)
    (hs : r.status = "success") :
    r.approaches ≠ [] ∧ r.language = some (selectLanguage (check_language_field req)) := by
  unfold generate_leetcode_solution at h
  rw [generate_leetcode_solution_body_eq, check_language_field_content] at h
  split at h
  · rw [getResponse] at h
    cases h
    simp [shortInputResponse] at hs
  · split at h
    · rw [getResponse] at h
      cases h
    · split at h
      · rw [getResponse] at h
        cases h
        simp [noApproachesResponse] at hs
      · rw [getResponse] at h
        rename_i hguard hstatus hempty
        cases h
        refine ⟨?_, rfl⟩
        intro hnil
        simp only [] at hnil
        simp at hnil
        simp [hnil] at hempty

/-! ### Claim theorems -/

/-- C2: whenever the kickoff completes (so at least one stage produced a
value), the coordinator reports overall status `"success"`, substitutes
the deterministic fallback approach when the solution stage has no
structured output, still processes the criteria stage afterwards
(substituting the fallback criterion when that stage has no structured
output), and the status is `"error"` exactly on the runs where the
kickoff raised — that is, where every stage failed. -/
theorem c2_failure_policy :
    (∀ k : KickoffResult, (solve_leetcode_problem k).status =
      match k with
      | .raises _ => "error"
      | .outputs _ _ => "success")
    ∧ (∀ ct : CriteriaTaskOutput,
        (solve_leetcode_problem (.outputs .noPydantic ct)).approaches = [fallbackApproach])
    ∧ (∀ ct : CriteriaTaskOutput,
        (solve_leetcode_problem (.outputs .pydanticNoApproaches ct)).approaches
          = [fallbackApproach])
    ∧ (∀ st : SolutionTaskOutput,
        (solve_leetcode_problem (.outputs st .noPydantic)).criteria
          = [fallbackCriterion]) := by
  refine ⟨fun k => ?_, fun ct => rfl, fun ct => rfl, fun st => ?_⟩
  · cases k <;> rfl
  · cases st <;> rfl

/-- C3 counterexample: a candidate list of 3 approaches and one of 6
criteria reach the endpoint response untruncated — the exposed lengths
are 3 and 6, not the claimed caps of 2 and 5. -/
theorem c3_counterexample :
    (getResponse (generate_leetcode_solution
      ⟨"Given an array of integers nums and an integer target, return indices.",
       some "python", none, none⟩
      (fun _ _ => solve_leetcode_problem (.outputs
        (.pydanticApproaches [⟨"A", "approach one", 1, "", "", "", "", ""⟩,
          ⟨"B", "approach two", 2, "", "", "", "", ""⟩,
          ⟨"C", "approach three", 3, "", "", "", "", ""⟩])
        (.pydanticCriteria [⟨"c1", "one"⟩, ⟨"c2", "two"⟩, ⟨"c3", "three"⟩,
          ⟨"c4", "four"⟩, ⟨"c5", "five"⟩, ⟨"c6", "six"⟩]))))).map
      (fun r => (r.approaches.length, r.solution_criteria.map List.length))
    = some (3, some 6) := by decide

/-- C3 amended: the pipeline enforces no cap anywhere (the caps of 2
approaches and 5 criteria are only requested from the generator inside
the prompt text): the approaches list keeps the full candidate length
(sorted by rank) and the criteria candidate list is passed through
entirely unchanged. -/
theorem c3_no_cap_amended (l : List SolutionApproach) (c : List Criteria)
    (ct : CriteriaTaskOutput) :
    (solve_leetcode_problem (.outputs (.pydanticApproaches l) ct)).approaches.length
      = l.length
    ∧ (solve_leetcode_problem
        (.outputs (.pydanticApproaches l) (.pydanticCriteria c))).criteria = c := by
  constructor
  · have h : (solve_leetcode_problem (.outputs (.pydanticApproaches l) ct)).approaches
        = sortByRank l := rfl
    rw [h]
    exact List.length_insertionSort rankLe l
  · rfl

/-- C4: the approaches list produced by the pipeline from a parsed
candidate list is sorted non-decreasing by rank, and entries of equal
rank keep their original relative order — the sublist of entries at any
fixed rank is exactly the corresponding sublist of the input. -/
theorem c4_rank_ordering (l : List SolutionApproach) (ct : CriteriaTaskOutput) :
    List.Sorted rankLe
      ((solve_leetcode_problem (.outputs (.pydanticApproaches l) ct)).approaches)
    ∧ ∀ rk : Int,
        ((solve_leetcode_problem (.outputs (.pydanticApproaches l) ct)).approaches).filter
            (fun a => a.rank == rk)
          = l.filter (fun a => a.rank == rk) := by
  have h : (solve_leetcode_problem (.outputs (.pydanticApproaches l) ct)).approaches
      = sortByRank l := rfl
  rw [h]
  exact ⟨sorted_sortByRank l, fun rk => sortByRank_filter l rk⟩

/-- C7: a structured result of exactly two contract-valid records (ranks
1 and 2) is returned by normalization byte-identically, with status
`"success"` and no error message. -/
theorem c7_round_trip (a b : SolutionApproach) (ct : CriteriaTaskOutput)
    (ha : a.rank = 1) (hb : b.rank = 2) :
    (solve_leetcode_problem (.outputs (.pydanticApproaches [a, b]) ct)).approaches = [a, b]
    ∧ (solve_leetcode_problem (.outputs (.pydanticApproaches [a, b]) ct)).status = "success"
    ∧ (solve_leetcode_problem (.outputs (.pydanticApproaches [a, b]) ct)).error = "" := by
  refine ⟨?_, rfl, rfl⟩
  show sortByRank [a, b] = [a, b]
  unfold sortByRank
  simp [List.insertionSort, List.orderedInsert, rankLe, ha, hb]

/-- C7 witness at a concrete well-formed two-record output. -/
theorem c7_round_trip_witness :
    (solve_leetcode_problem (.outputs (.pydanticApproaches
      [⟨"Hash Map", "Single pass with a hash map.", 1, "O(n)", "O(n)", "code one", "", ""⟩,
       ⟨"Brute Force", "Check all pairs.", 2, "O(n^2)", "O(1)", "code two", "", ""⟩])
      (.pydanticCriteria []))).approaches
      = [⟨"Hash Map", "Single pass with a hash map.", 1, "O(n)", "O(n)", "code one", "", ""⟩,
         ⟨"Brute Force", "Check all pairs.", 2, "O(n^2)", "O(1)", "code two", "", ""⟩]
    ∧ (solve_leetcode_problem (.outputs (.pydanticApproaches
      [⟨"Hash Map", "Single pass with a hash map.", 1, "O(n)", "O(n)", "code one", "", ""⟩,
       ⟨"Brute Force", "Check all pairs.", 2, "O(n^2)", "O(1)", "code two", "", ""⟩])
      (.pydanticCriteria []))).status = "success"
    ∧ (solve_leetcode_problem (.outputs (.pydanticApproaches
      [⟨"Hash Map", "Single pass with a hash map.", 1, "O(n)", "O(n)", "code one", "", ""⟩,
       ⟨"Brute Force", "Check all pairs.", 2, "O(n^2)", "O(1)", "code two", "", ""⟩])
      (.pydanticCriteria []))).error = "" :=
  c7_round_trip _ _ _ rfl rfl

/-- C6: an empty or too-short (stripped length below 10) problem text
makes the endpoint return the error payload (status `"error"` with a
message) and the result does not depend on the crew collaborator in any
way — no generation stage is invoked. -/
theorem c6_invalid_input (req : LeetCodeSolutionRequest)
    (crew₁ crew₂ : String → String → SolutionResult)
    (h : req.content = "" ∨ pyLen (pyStrip req.content) < 10) :
    generate_leetcode_solution req crew₁ = .response shortInputResponse
    ∧ generate_leetcode_solution req crew₁ = generate_leetcode_solution req crew₂
    ∧ shortInputResponse.status = "error"
    ∧ shortInputResponse.message.isSome = true := by
  have hcond : (req.content == "" || decide (pyLen (pyStrip req.content) < 10)) = true := by
    rcases h with h | h <;> simp [h]
  have key : ∀ crew : String → String → SolutionResult,
      generate_leetcode_solution req crew = .response shortInputResponse := by
    intro crew
    unfold generate_leetcode_solution
    rw [generate_leetcode_solution_body_eq, check_language_field_content, hcond]
    rfl
  exact ⟨key crew₁, (key crew₁).trans (key crew₂).symm, rfl, rfl⟩

/-- C6 witness: a concrete five-character problem text is rejected before
the crew runs, for two crews that differ everywhere. -/
theorem c6_invalid_input_witness :
    pyLen (pyStrip "short") < 10
    ∧ (generate_leetcode_solution ⟨"short", none, none, none⟩
          (fun _ _ => solve_leetcode_problem (.raises "first crew"))
        = .response shortInputResponse
      ∧ generate_leetcode_solution ⟨"short", none, none, none⟩
          (fun _ _ => solve_leetcode_problem (.raises "first crew"))
        = generate_leetcode_solution ⟨"short", none, none, none⟩
          (fun _ _ => solve_leetcode_problem (.outputs .noPydantic .noPydantic))
      ∧ shortInputResponse.status = "error"
      ∧ shortInputResponse.message.isSome = true) :=
  ⟨by decide, c6_invalid_input _ _ _ (Or.inr (by decide))⟩

/-- C10: the language handed to the crew is the first non-empty field
among `programmingLanguage`, `programLanguage`, `language` in that
priority order (defaulting to `"python"` when all are absent); the
endpoint depends on the crew only through its value at the problem text
and that language; and every success response echoes that language
unchanged in its `language` field. -/
theorem c10_language_selection (req : LeetCodeSolutionRequest) :
    selectLanguage (check_language_field req) = claimedSelectedLanguage req
    ∧ (∀ crew₁ crew₂ : String → String → SolutionResult,
        crew₁ req.content (claimedSelectedLanguage req)
          = crew₂ req.content (claimedSelectedLanguage req) →
        generate_leetcode_solution req crew₁ = generate_leetcode_solution req crew₂)
    ∧ (∀ (crew : String → String → SolutionResult) (r : EndpointResponse),
        getResponse (generate_leetcode_solution req crew) = some r →
        r.status = "success" → r.language = some (claimedSelectedLanguage req)) := by
  refine ⟨selectLanguage_check req, ?_, ?_⟩
  · intro crew₁ crew₂ hcrew
    unfold generate_leetcode_solution
    rw [generate_leetcode_solution_body_eq, generate_leetcode_solution_body_eq,
      check_language_field_content, selectLanguage_check, hcrew]
  · intro crew r h hs
    have hinv := endpoint_success_inversion req crew r h hs
    rw [selectLanguage_check] at hinv
    exact hinv.2

/-- C10 witness: a request carrying an empty `programmingLanguage` and
`programLanguage = "java"` selects `"java"`, the endpoint only consumes
the crew at that point, and the success response echoes `"java"`. -/
theorem c10_language_selection_witness :
    selectLanguage (check_language_field
        ⟨"Given an array of integers nums and an integer target, return indices.",
         some "", some "java", some "python"⟩)
      = claimedSelectedLanguage
        ⟨"Given an array of integers nums and an integer target, return indices.",
         some "", some "java", some "python"⟩
    ∧ generate_leetcode_solution
        ⟨"Given an array of integers nums and an integer target, return indices.",
         some "", some "java", some "python"⟩
        (fun _ _ => solve_leetcode_problem (.outputs .noPydantic .noPydantic))
      = generate_leetcode_solution
        ⟨"Given an array of integers nums and an integer target, return indices.",
         some "", some "java", some "python"⟩
        (fun p l =>
          if l == "java" then solve_leetcode_problem (.outputs .noPydantic .noPydantic)
          else solve_leetcode_problem (.raises p)) :=
  ⟨(c10_language_selection _).1,
   (c10_language_selection _).2.1 _ _ (by decide)⟩

/-- C1 counterexample: a run whose criteria stage returns a structured
empty list is aggregated into a status-`"success"` response whose
criteria list is empty (no fallback is substituted), and a run whose
crew raises produces an HTTP 500 failure instead of a fallback record. -/
theorem c1_counterexample :
    (getResponse (generate_leetcode_solution
      ⟨"Given an array of integers nums and an integer target, return indices.",
       some "python", none, none⟩
      (fun _ _ => solve_leetcode_problem (.outputs
        (.pydanticApproaches [⟨"Hash Map", "Use a map to store complements.",
          1, "O(n)", "O(n)", "", "", ""⟩])
        (.pydanticCriteria []))))).map (fun r => (r.status, r.solution_criteria))
      = some ("success", some [])
    ∧ generate_leetcode_solution
        ⟨"Given an array of integers nums and an integer target, return indices.",
         some "python", none, none⟩
        (fun _ _ => solve_leetcode_problem (.raises "connection timeout"))
      = .httpError 500 "Error in LeetCodeCrew: connection timeout" := by decide

/-- C1 amended: every response whose status is `"success"` carries a
non-empty approaches list (an empty one yields an error payload, not a
fallback); the deterministic fallback criterion is substituted exactly
when the criteria stage lacks structured output — a structured empty
criteria list is passed through empty; and a crew-level error status
surfaces as an HTTP 500 failure rather than as fallback records. -/
theorem c1_fallback_amended :
    (∀ (req : LeetCodeSolutionRequest) (crew : String → String → SolutionResult)
        (r : EndpointResponse),
        getResponse (generate_leetcode_solution req crew) = some r →
        r.status = "success" → r.approaches ≠ [])
    ∧ (∀ st : SolutionTaskOutput,
        (solve_leetcode_problem (.outputs st .noPydantic)).criteria = [fallbackCriterion])
    ∧ (∀ (req : LeetCodeSolutionRequest) (crew : String → String → SolutionResult),
        ((crew req.content (selectLanguage (check_language_field req))).status == "error")
            = true →
        (req.content == "" || decide (pyLen (pyStrip req.content) < 10)) = false →
        generate_leetcode_solution req crew
          = .httpError 500
              (crew req.content (selectLanguage (check_language_field req))).error) := by
  refine ⟨?_, ?_, ?_⟩
  · intro req crew r h hs
    exact (endpoint_success_inversion req crew r h hs).1
  · intro st
    cases st <;> rfl
  · intro req crew hst hguard
    unfold generate_leetcode_solution
    rw [generate_leetcode_solution_body_eq, check_language_field_content, hguard, hst]
    rfl

/-- C1 amended witness: a concrete success run has non-empty approaches,
and a concrete raising run surfaces as HTTP 500. -/
theorem c1_fallback_amended_witness :
    (⟨"success", none, some "python",
      [⟨"Hash Map", "Use a map to store complements.", 1, "O(n)", "O(n)", "", "", ""⟩],
      some (mkIntroduction
        ⟨"Hash Map", "Use a map to store complements.", 1, "O(n)", "O(n)", "", "", ""⟩),
      some 1,
      some [⟨"usesHashMap", "Uses a hash map for lookups.", ""⟩]⟩ :
        EndpointResponse).approaches ≠ []
    ∧ generate_leetcode_solution
        ⟨"Given an array of integers nums and an integer target, return indices.",
         some "python", none, none⟩
        (fun _ _ => solve_leetcode_problem (.raises "auth failure"))
      = .httpError 500
          ((fun _ _ => solve_leetcode_problem (.raises "auth failure"))
            ((⟨"Given an array of integers nums and an integer target, return indices.",
               some "python", none, none⟩ : LeetCodeSolutionRequest)).content
            (selectLanguage (check_language_field
              ⟨"Given an array of integers nums and an integer target, return indices.",
               some "python", none, none⟩))).error :=
  ⟨c1_fallback_amended.1
      ⟨"Given an array of integers nums and an integer target, return indices.",
       some "python", none, none⟩
      (fun _ _ => solve_leetcode_problem (.outputs
        (.pydanticApproaches [⟨"Hash Map", "Use a map to store complements.",
          1, "O(n)", "O(n)", "", "", ""⟩])
        (.pydanticCriteria [⟨"usesHashMap", "Uses a hash map for lookups."⟩])))
      _ (by decide) rfl,
   c1_fallback_amended.2.2
      ⟨"Given an array of integers nums and an integer target, return indices.",
       some "python", none, none⟩
      (fun _ _ => solve_leetcode_problem (.raises "auth failure"))
      (by decide) (by decide)⟩

/-- C5 counterexample: two generator criteria with the same id `"dupKey"`
both reach the response payload unchanged — the later duplicate is
neither dropped nor renamed, so ids are not pairwise unique. -/
theorem c5_counterexample :
    (getResponse (generate_leetcode_solution
      ⟨"Given an array of integers nums and an integer target, return indices.",
       some "python", none, none⟩
      (fun _ _ => solve_leetcode_problem (.outputs
        (.pydanticApproaches [⟨"Hash Map", "Use a map to store complements.",
          1, "O(n)", "O(n)", "", "", ""⟩])
        (.pydanticCriteria [⟨"dupKey", "first criterion"⟩,
          ⟨"dupKey", "second criterion"⟩]))))).map (fun r => r.solution_criteria)
      = some (some [⟨"dupKey", "first criterion", ""⟩,
          ⟨"dupKey", "second criterion", ""⟩]) := by decide

/-- C5 amended: the endpoint performs no deduplication: the criteria list
of the response is exactly the generator criteria mapped field-by-field
(`pattern` set to `""`), ids preserved verbatim in order — so duplicate
ids survive to the response. -/
theorem c5_ids_passthrough (req : LeetCodeSolutionRequest)
    (a : SolutionApproach) (t : List SolutionApproach) (c : List Criteria)
    (h10 : 10 ≤ pyLen (pyStrip req.content)) :
    (getResponse (generate_leetcode_solution req (fun _ _ =>
        solve_leetcode_problem (.outputs (.pydanticApproaches (a :: t))
          (.pydanticCriteria c))))).map (fun r => r.solution_criteria)
      = some (some (c.map toCriterionOut)) := by
  have hlen : (sortByRank (a :: t)).length = t.length + 1 := by
    simpa [sortByRank] using List.length_insertionSort rankLe (a :: t)
  obtain ⟨a₀, t₀, heq⟩ : ∃ a₀ t₀, sortByRank (a :: t) = a₀ :: t₀ := by
    cases hsl : sortByRank (a :: t) with
    | nil => rw [hsl] at hlen; simp at hlen
    | cons x xs => exact ⟨x, xs, rfl⟩
  have h := generate_success_eval req
      (fun _ _ => solve_leetcode_problem (.outputs (.pydanticApproaches (a :: t))
        (.pydanticCriteria c))) h10 rfl a₀ t₀ heq
  rw [h]
  rfl

/-- C5 amended witness at a concrete request and criteria list. -/
theorem c5_ids_passthrough_witness :
    (getResponse (generate_leetcode_solution
      ⟨"Given an array of integers nums and an integer target, return indices.",
       some "python", none, none⟩
      (fun _ _ => solve_leetcode_problem (.outputs
        (.pydanticApproaches [⟨"Hash Map", "Use a map to store complements.",
          1, "O(n)", "O(n)", "", "", ""⟩])
        (.pydanticCriteria [⟨"checkEdge", "Handles empty input."⟩]))))).map
      (fun r => r.solution_criteria)
      = some (some (([⟨"checkEdge", "Handles empty input."⟩] : List Criteria).map
          toCriterionOut)) :=
  c5_ids_passthrough _ _ _ _ (by decide)

/-- C9: on the success path, the response introduction is exactly the
title of the first minimal-rank approach followed by the 200-character
prefix of its content (and a trailing ellipsis), and that approach
attains the lowest rank among all approaches of the response. -/
theorem c9_introduction (req : LeetCodeSolutionRequest)
    (crew : String → String → SolutionResult)
    (a : SolutionApproach) (t : List SolutionApproach)
    (h10 : 10 ≤ pyLen (pyStrip req.content))
    (hst : ((crew req.content (selectLanguage (check_language_field req))).status == "error")
        = false)
    (happ : (crew req.content (selectLanguage (check_language_field req))).approaches
        = a :: t) :
    (getResponse (generate_leetcode_solution req crew)).map (fun r => r.introduction)
      = some (some (mkIntroduction
          (minByRank (toApproachResponse a) (t.map toApproachResponse))))
    ∧ mkIntroduction (minByRank (toApproachResponse a) (t.map toApproachResponse))
        = (minByRank (toApproachResponse a) (t.map toApproachResponse)).title
          ++ " - "
          ++ pyTake 200 (minByRank (toApproachResponse a) (t.map toApproachResponse)).content
          ++ "..."
    ∧ minByRank (toApproachResponse a) (t.map toApproachResponse)
        ∈ toApproachResponse a :: t.map toApproachResponse
    ∧ ∀ x ∈ toApproachResponse a :: t.map toApproachResponse,
        (minByRank (toApproachResponse a) (t.map toApproachResponse)).rank ≤ x.rank := by
  refine ⟨?_, rfl, minByRank_mem _ _, minByRank_le _ _⟩
  rw [generate_success_eval req crew h10 hst a t happ]
  rfl

/-- C9 witness: with approaches of ranks 1 and 2 (emitted rank-2 first by
the generator, then sorted), the introduction is derived from the rank-1
approach. -/
theorem c9_introduction_witness :
    pyLen (pyStrip "Given an array of integers nums and an integer target, return indices.")
      ≥ 10
    ∧ ((getResponse (generate_leetcode_solution
        ⟨"Given an array of integers nums and an integer target, return indices.",
         some "python", none, none⟩
        (fun _ _ => solve_leetcode_problem (.outputs
          (.pydanticApproaches [⟨"Brute Force", "Check all pairs.", 2, "O(n^2)", "O(1)", "", "", ""⟩,
            ⟨"Hash Map", "Use a map to store complements.", 1, "O(n)", "O(n)", "", "", ""⟩])
          (.pydanticCriteria []))))).map (fun r => r.introduction)
      = some (some (mkIntroduction
          (minByRank
            (toApproachResponse ⟨"Hash Map", "Use a map to store complements.",
              1, "O(n)", "O(n)", "", "", ""⟩)
            (([⟨"Brute Force", "Check all pairs.", 2, "O(n^2)", "O(1)", "", "", ""⟩] :
                List SolutionApproach).map toApproachResponse))))) :=
  ⟨by decide,
   (c9_introduction
      ⟨"Given an array of integers nums and an integer target, return indices.",
       some "python", none, none⟩
      (fun _ _ => solve_leetcode_problem (.outputs
        (.pydanticApproaches [⟨"Brute Force", "Check all pairs.", 2, "O(n^2)", "O(1)", "", "", ""⟩,
          ⟨"Hash Map", "Use a map to store complements.", 1, "O(n)", "O(n)", "", "", ""⟩])
        (.pydanticCriteria [])))
      ⟨"Hash Map", "Use a map to store complements.", 1, "O(n)", "O(n)", "", "", ""⟩
      [⟨"Brute Force", "Check all pairs.", 2, "O(n^2)", "O(1)", "", "", ""⟩]
      (by decide) (by decide) (by decide)).1⟩

/-- C8 counterexample: on the spec input, the normalizer keeps the whole
raw text as a single-element list — the embedded JSON array is not
extracted. -/
theorem c8_counterexample :
    normalize_criteria_text "Here is the result: [\"a\", \"b\"] — done"
      = ["Here is the result: [\"a\", \"b\"] — done"]
    ∧ normalize_criteria_text "Here is the result: [\"a\", \"b\"] — done"
      ≠ ["a", "b"] := by decide

/-- C8 amended: embedded-JSON extraction runs only when the stripped raw
text both starts with a bracket and ends with one; any other free text is
kept whole, as the single-element list containing the stripped raw text
(or the empty list for empty input, which the final comprehension filters
out). -/
theorem c8_free_text_amended (s : String)
    (h : ((match stripChars s.data with | '[' :: _ => true | _ => false) &&
          (match (stripChars s.data).reverse with | ']' :: _ => true | _ => false)) = false) :
    normalize_criteria_text s = if s == "" then [] else [pyStrip s] := by
  by_cases hs : (s == "") = true
  · unfold normalize_criteria_text
    simp [h, hs]
  · unfold normalize_criteria_text
    simp [h, hs]

/-- C8 amended witness: a concrete free-text output is kept whole. -/
theorem c8_free_text_amended_witness :
    normalize_criteria_text "plain text answer"
      = if "plain text answer" == "" then [] else [pyStrip "plain text answer"] :=
  c8_free_text_amended _ (by decide)

end CrewPipeline
